import Mathlib

/-!
Verification development for the `office-mcp-server` repository (`src/main.py`).

The program is a single-process tool server: ten document operations
(`OfficeManager` methods) over a flat workspace directory, plus a dispatcher
(`handle_call_tool`) that maps tool names and argument dictionaries to those
operations.  This file gives a shallow embedding of that program:

* the workspace is a finite association list from filenames to entries
  (document files with a byte size, or directories);
* Word documents are their paragraph texts, Excel workbooks are lists of
  sheets holding cell assignments, presentations are slide lists plus the
  layout collection of the external library's default template;
* every place where the Python code can raise (opening a path of the wrong
  kind, saving onto a directory, out-of-range cell coordinates, list index
  errors, missing required arguments) is an `Except PyErr` value, and each
  operation is its `try` body wrapped in the `except` clause that converts
  an error to the operation's failure text, exactly as in the source;
* the serialized outputs mirror `json.dumps(..., ensure_ascii=False, indent=2)`
  on the value shapes this program serializes.
-/

namespace Office

/-- Cell / argument scalar values as read from JSON: Python `None`, `int`, `str`. -/
inductive Val
| vNone
| vInt (n : Int)
| vStr (s : String)
deriving DecidableEq

/-- Exceptions the modelled library calls can raise.  `errStr` below gives the
`str(e)` rendering that the operations embed in their failure messages. -/
inductive PyErr
| keyError (k : String)
| typeError (m : String)
| valueError (m : String)
| attributeError (m : String)
| indexError (m : String)
| isADirectory (p : String)
| notWordFile (p : String)
| notExcelFile (p : String)
| notPptFile (p : String)
| packageNotFound (p : String)
| styleNotFound (name : String)
deriving DecidableEq

/-- Python `str(e)` for each modelled exception. -/
def errStr : PyErr → String
| .keyError k => "\x27" ++ k ++ "\x27"
| .typeError m => m
| .valueError m => m
| .attributeError m => m
| .indexError m => m
| .isADirectory p => "[Errno 21] Is a directory: \x27" ++ p ++ "\x27"
| .notWordFile p => "file \x27" ++ p ++ "\x27 is not a Word file"
| .notExcelFile p => "file \x27" ++ p ++ "\x27 is not an Excel file"
| .notPptFile p => "file \x27" ++ p ++ "\x27 is not a PowerPoint file"
| .packageNotFound p => "Package not found at \x27" ++ p ++ "\x27"
| .styleNotFound name => "no style with name \x27" ++ name ++ "\x27"

/-! ### JSON rendering

`json.dumps(value, ensure_ascii=False, indent=2)` on the shapes this program
serializes: nested arrays of scalars, and string-keyed objects of scalars and
string arrays. -/

/-- `n` spaces. -/
def spaces (n : Nat) : String :=
  String.mk (List.replicate n ' ')

/-- Join pre-rendered items with `",\n"` (the separator `json.dumps` uses when
`indent` is given). -/
def joinCommaNl : List String → String
| [] => ""
| [x] => x
| x :: y :: rest => x ++ ",\n" ++ joinCommaNl (y :: rest)

/-- One hexadecimal digit. -/
def hexDigit (n : Nat) : Char :=
  if n < 10 then Char.ofNat (48 + n) else Char.ofNat (87 + (n - 10))

/-- JSON escaping of one character (`ensure_ascii=False`: non-ASCII characters
stay verbatim). -/
def escCharJ (c : Char) : String :=
  if c = '"' then "\\\""
  else if c = '\\' then "\\\\"
  else if c = '\n' then "\\n"
  else if c = '\r' then "\\r"
  else if c = '\t' then "\\t"
  else if c.toNat < 32 then
    "\\u00" ++ String.mk [hexDigit (c.toNat / 16), hexDigit (c.toNat % 16)]
  else String.singleton c

/-- JSON escaping of a string body. -/
def escJ (s : String) : String :=
  s.data.foldl (fun acc c => acc ++ escCharJ c) ""

/-- A JSON string literal. -/
def jquote (s : String) : String :=
  "\"" ++ escJ s ++ "\""

/-- A JSON array at nesting level `lvl`, items already rendered:
`[]` when empty, otherwise one item per line indented by `2*(lvl+1)`. -/
def jarrStr (lvl : Nat) (items : List String) : String :=
  if items.isEmpty then "[]"
  else
    "[\n" ++ joinCommaNl (items.map (fun s => spaces (2 * (lvl + 1)) ++ s)) ++
    "\n" ++ spaces (2 * lvl) ++ "]"

/-- A JSON object at nesting level `lvl`, values already rendered. -/
def jobjStr (lvl : Nat) (fields : List (String × String)) : String :=
  if fields.isEmpty then "\x7b\x7d"
  else
    "\x7b\n" ++
    joinCommaNl (fields.map (fun kv =>
      spaces (2 * (lvl + 1)) ++ jquote kv.1 ++ ": " ++ kv.2)) ++
    "\n" ++ spaces (2 * lvl) ++ "\x7d"

/-- A JSON scalar. -/
def jvalStr : Val → String
| .vNone => "null"
| .vInt n => toString n
| .vStr s => jquote s

/-- `json.dumps(rows, ensure_ascii=False, indent=2)` for a list of rows of
scalars (the `read_excel_data` payload). -/
def rowsDump (rows : List (List Val)) : String :=
  jarrStr 0 (rows.map (fun r => jarrStr 1 (r.map jvalStr)))

/-! ### Word documents (`python-docx`)

A document is its list of paragraph texts; headings and plain paragraphs read
back identically through `paragraph.text`. -/

/-- Word document: the paragraph texts in order. -/
abbrev WordDoc := List String

/-- Python's default whitespace set for `str.strip()` (`str.isspace()`):
the ASCII controls 09–0D, the separators 1C–1F, space, NEL (85), NBSP (A0),
Ogham space (1680), the Unicode spaces 2000–200A, the line and paragraph
separators 2028/2029, narrow NBSP (202F), medium mathematical space (205F)
and ideographic space (3000). -/
def isSpaceChar (c : Char) : Bool :=
  let n := c.toNat
  decide ((9 ≤ n ∧ n ≤ 13) ∨ (28 ≤ n ∧ n ≤ 31) ∨ n = 32 ∨ n = 0x85 ∨ n = 0xa0 ∨
    n = 0x1680 ∨ (0x2000 ≤ n ∧ n ≤ 0x200a) ∨ n = 0x2028 ∨ n = 0x2029 ∨
    n = 0x202f ∨ n = 0x205f ∨ n = 0x3000)

/-- Python `str.strip()`: drop leading and trailing whitespace. -/
def strip (s : String) : String :=
  String.mk (((s.data.dropWhile isSpaceChar).reverse.dropWhile isSpaceChar).reverse)

/-- `doc.add_heading(text, level)`: level 0 uses the `Title` style, 1–9 use
`Heading <level>`; any other level names a style missing from the default
template and raises. -/
def add_heading (doc : WordDoc) (text : String) (level : Int) : Except PyErr WordDoc :=
  if 0 ≤ level ∧ level ≤ 9 then .ok (doc ++ [text])
  else .error (.styleNotFound ("Heading " ++ toString level))

/-- `doc.add_paragraph(text)`. -/
def add_paragraph (doc : WordDoc) (text : String) : WordDoc :=
  doc ++ [text]

/-- The read loop of `read_word_document`: keep each paragraph whose stripped
text is non-empty. -/
def collectParas : List String → List String
| [] => []
| p :: ps => if strip p = "" then collectParas ps else p :: collectParas ps

/-- Python `"\n".join(...)`. -/
def joinNl : List String → String
| [] => ""
| [s] => s
| s :: t :: rest => s ++ "\n" ++ joinNl (t :: rest)

/-! ### Excel workbooks (`openpyxl`)

A sheet stores its cell assignments newest-first; the used bounding box
determines what `iter_rows` yields. -/

/-- One worksheet: title plus cell assignments (newest first, 1-indexed keys). -/
structure Sheet where
  title : String
  cells : List ((Nat × Nat) × Val)
deriving DecidableEq

/-- A workbook: its sheets in order; the active sheet is the first (this
program only ever appends sheets, which does not change the active one). -/
structure Workbook where
  sheets : List Sheet
deriving DecidableEq

/-- Value of a cell: the newest assignment to that coordinate, `None` if never
assigned. -/
def lookupCell : List ((Nat × Nat) × Val) → Nat → Nat → Val
| [], _, _ => .vNone
| (k, v) :: rest, r, c => if k.1 = r ∧ k.2 = c then v else lookupCell rest r c

/-- `ws.cell(row=r, column=c, value=v)`: openpyxl raises unless both
coordinates are at least 1. -/
def ws_cell (s : Sheet) (row col : Int) (v : Val) : Except PyErr Sheet :=
  if row < 1 ∨ col < 1 then
    .error (.valueError "Row or column values must be at least 1")
  else .ok { s with cells := ((row.toNat, col.toNat), v) :: s.cells }

/-- Inner loop of `write_excel_data`: one row, columns `start_col + col_idx`. -/
def writeRow (s : Sheet) (row col : Int) : List Val → Except PyErr Sheet
| [] => .ok s
| v :: vs =>
  match ws_cell s row col v with
  | .error e => .error e
  | .ok s1 => writeRow s1 row (col + 1) vs

/-- Outer loop of `write_excel_data`: rows `start_row + row_idx`. -/
def writeRows (s : Sheet) (row col : Int) : List (List Val) → Except PyErr Sheet
| [] => .ok s
| r :: rest =>
  match writeRow s row col r with
  | .error e => .error e
  | .ok s1 => writeRows s1 (row + 1) col rest

/-- Bounding box (min row, max row, min col, max col) of the assigned cells. -/
def minMaxRC : List ((Nat × Nat) × Val) → Option (Nat × Nat × Nat × Nat)
| [] => none
| ((r, c), _) :: rest =>
  match minMaxRC rest with
  | none => some (r, r, c, c)
  | some (r0, r1, c0, c1) => some (min r0 r, max r1 r, min c0 c, max c1 c)

/-- Worksheet dimensions; an empty sheet reports the `A1:A1` box like openpyxl. -/
def sheetDims (s : Sheet) : Nat × Nat × Nat × Nat :=
  (minMaxRC s.cells).getD (1, 1, 1, 1)

/-- `ws.iter_rows(values_only=True)`: all rows of the bounding box, each cell's
value or `None`. -/
def iter_rows (s : Sheet) : List (List Val) :=
  match sheetDims s with
  | (r0, r1, c0, c1) =>
    (List.range' r0 (r1 - r0 + 1)).map fun r =>
      (List.range' c0 (c1 - c0 + 1)).map fun c => lookupCell s.cells r c

/-- The read loop of `read_excel_data`: keep each row with at least one
non-`None` cell. -/
def collectRows : List (List Val) → List (List Val)
| [] => []
| r :: rest =>
  if r.any (fun v => decide (v ≠ Val.vNone)) then r :: collectRows rest
  else collectRows rest

/-- `wb.sheetnames`. -/
def sheetnames (wb : Workbook) : List String :=
  wb.sheets.map (·.title)

/-- `wb.create_sheet(name)`: appends a fresh sheet. -/
def create_sheet (wb : Workbook) (name : String) : Workbook :=
  { sheets := wb.sheets ++ [{ title := name, cells := [] }] }

/-- First sheet with the given title (`wb[name]`). -/
def wbFind : List Sheet → String → Option Sheet
| [], _ => none
| s :: rest, n => if s.title = n then some s else wbFind rest n

/-- `wb[name]`, defaulting to a fresh sheet (only used under a membership
guard, as in the source). -/
def wbGetD (wb : Workbook) (n : String) : Sheet :=
  (wbFind wb.sheets n).getD { title := n, cells := [] }

/-- Write a sheet back in place of the first sheet with the same title
(the in-place mutation of `ws` in the source). -/
def wbSetSheet : List Sheet → String → Sheet → List Sheet
| [], _, _ => []
| s :: rest, n, s1 => if s.title = n then s1 :: rest else s :: wbSetSheet rest n s1

/-- `wb.active.title` (the first sheet for workbooks this program produces). -/
def activeTitle (wb : Workbook) : String :=
  (wb.sheets.headD { title := "Sheet", cells := [] }).title

/-! ### Presentations (`python-pptx`)

Per the spec's glossary, placeholders are content regions "addressed
positionally"; a layout is its title flag and its placeholder count, a slide
carries the texts of its title and second placeholder when those exist. -/

/-- A slide layout: whether it has a title placeholder, and how many
placeholders it has in total. -/
structure SlideLayout where
  hasTitle : Bool
  numPh : Nat
deriving DecidableEq

/-- A slide: text of the title placeholder (if the layout has one), text of the
second placeholder (if the layout has more than one), placeholder count. -/
structure Slide where
  titleText : Option String
  bodyText : Option String
  numPh : Nat
deriving DecidableEq

/-- A presentation: the template's layout collection plus the slides. -/
structure Pres where
  layouts : List SlideLayout
  slides : List Slide
deriving DecidableEq

/-- The 11 slide layouts of the external library's default template
(0 Title Slide, 1 Title and Content, …, 6 Blank, …). -/
def defaultLayouts : List SlideLayout :=
  [⟨true, 2⟩, ⟨true, 2⟩, ⟨true, 2⟩, ⟨true, 3⟩, ⟨true, 5⟩,
   ⟨true, 1⟩, ⟨false, 0⟩, ⟨true, 3⟩, ⟨true, 3⟩, ⟨true, 2⟩, ⟨true, 2⟩]

/-- `Presentation()`: the default template, no slides. -/
def newPres : Pres :=
  { layouts := defaultLayouts, slides := [] }

/-- `prs.slides.add_slide(layout)`: a fresh slide cloning the layout's
placeholders, all texts empty. -/
def newSlideFrom (L : SlideLayout) : Slide :=
  { titleText := if L.hasTitle then some "" else none
    bodyText := if 1 < L.numPh then some "" else none
    numPh := L.numPh }

/-- `if slide.shapes.title: slide.shapes.title.text = title` (guarded title
assignment in `add_ppt_slide`). -/
def setSlideTitle (sl : Slide) (t : String) : Slide :=
  if sl.titleText.isSome then { sl with titleText := some t } else sl

/-- `slide.shapes.title.text = title` unguarded (in `create_ppt_presentation`):
raises `AttributeError` when the layout has no title placeholder. -/
def setTitleStrict (sl : Slide) (t : String) : Except PyErr Slide :=
  match sl.titleText with
  | some _ => .ok { sl with titleText := some t }
  | none => .error (.attributeError "\x27NoneType\x27 object has no attribute \x27text\x27")

/-- `prs.slide_layouts[i]` (`SlideLayouts.__getitem__`): Python-style list
indexing where negative indices count from the end; on any out-of-range index
the library catches the list `IndexError` and re-raises
`IndexError("slide layout index out of range")`. -/
def pyIndex (l : List SlideLayout) (i : Int) : Except PyErr SlideLayout :=
  let j := if 0 ≤ i then i else i + l.length
  if 0 ≤ j then
    match l.get? j.toNat with
    | some x => .ok x
    | none => .error (.indexError "slide layout index out of range")
  else .error (.indexError "slide layout index out of range")

/-- Title shown by `get_ppt_info`: the title placeholder's text when present
and non-empty, otherwise the fixed sentinel. -/
def slideTitleStr (sl : Slide) : String :=
  match sl.titleText with
  | some t => if t = "" then "无标题" else t
  | none => "无标题"

/-- The title-listing loop of `get_ppt_info` (`enumerate` from 0, labels from 1). -/
def pptTitles : List Slide → Nat → List String
| [], _ => []
| sl :: rest, i => ("第" ++ toString (i + 1) ++ "页: " ++ slideTitleStr sl) :: pptTitles rest (i + 1)

/-! ### Workspace filesystem

A flat association list from filenames to entries.  The empty filename
resolves to the workspace directory itself (`Path("./office_workspace") / ""`),
which exists and is a directory. -/

/-- The document content of a saved file. -/
inductive FileData
| word (doc : WordDoc)
| excel (wb : Workbook)
| ppt (prs : Pres)
| otherFile
deriving DecidableEq

/-- A directory entry: a regular file with its byte size, or a subdirectory. -/
inductive Entry
| file (data : FileData) (size : Nat)
| dir
deriving DecidableEq

/-- The workspace directory: entries in iteration order. -/
abbrev FS := List (String × Entry)

/-- Entry at a filename. -/
def fsGet : FS → String → Option Entry
| [], _ => none
| (k, e) :: rest, fn => if fn = k then some e else fsGet rest fn

/-- Write an entry: replace in place if the name exists, else append. -/
def fsSet : FS → String → Entry → FS
| [], fn, e => [(fn, e)]
| (k, v) :: rest, fn, e => if k = fn then (fn, e) :: rest else (k, v) :: fsSet rest fn e

/-- `str(self.workspace_dir / filename)` (the path shown in success messages). -/
def pathStr (fn : String) : String :=
  if fn = "" then "office_workspace" else "office_workspace" ++ "/" ++ fn

/-- Index of the last `'.'` in a character list, if any. -/
def lastDot : List Char → Option Nat
| [] => none
| c :: cs =>
  match lastDot cs with
  | some i => some (i + 1)
  | none => if c = '.' then some 0 else none

/-- `Path(name).suffix`: the extension including its dot; empty when the name
has no dot, starts with its only dot, or ends with the dot. -/
def pathSuffix (name : String) : String :=
  match lastDot name.data with
  | none => ""
  | some i =>
    if 0 < i ∧ i + 1 < name.data.length then String.mk (name.data.drop i) else ""

/-- Modelled from the spec: the byte size the external library's `save` writes
for a document container (reported by `list_files` via `stat().st_size`);
modelled as a deterministic function of the document content. -/
def encSize : FileData → Nat
| .word doc => 36000 + 20 * doc.length + (doc.map String.length).sum
| .excel wb => 4700 + 300 * wb.sheets.length + 8 * (wb.sheets.map (fun s => s.cells.length)).sum
| .ppt prs => 27000 + 500 * prs.slides.length
| .otherFile => 100

/-- The largest column index the xlsx writer can render: `get_column_letter`
accepts 1 … 18278 (`"ZZZ"`) and raises `ValueError("Invalid column index N")`
beyond it.  `ws.cell` itself enforces only the lower bound; the upper bound
surfaces when the workbook is saved. -/
def maxCol : Nat := 18278

/-- The first cell of a sheet (in the writer's (row, column)-sorted order)
whose column exceeds `maxCol`, if any. -/
def firstBadInCells : List ((Nat × Nat) × Val) → Option (Nat × Nat)
| [] => none
| (k, _) :: rest =>
  match firstBadInCells rest with
  | none => if maxCol < k.2 then some k else none
  | some p =>
    if maxCol < k.2 then
      (if k.1 < p.1 ∨ (k.1 = p.1 ∧ k.2 < p.2) then some k else some p)
    else some p

/-- The first cell over all sheets (saved in order) whose column exceeds
`maxCol`, if any. -/
def wbFirstBadCol : List Sheet → Option (Nat × Nat)
| [] => none
| s :: rest =>
  match firstBadInCells s.cells with
  | some p => some p
  | none => wbFirstBadCol rest

/-- `file_path.exists()`. -/
def pathExists (fs : FS) (fn : String) : Bool :=
  fn = "" || (fsGet fs fn).isSome

/-- Whether the resolved path is a directory (the workspace itself for the
empty filename, or a subdirectory entry). -/
def isDirPath (fs : FS) (fn : String) : Bool :=
  fn = "" ||
    (match fsGet fs fn with
     | some .dir => true
     | _ => false)

/-- `doc.save(file_path)` / `wb.save` / `prs.save`: writes the entry, raising
when the path is a directory.  Saving a workbook renders each cell coordinate,
raising `ValueError("Invalid column index N")` at the first cell (in the
writer's sorted order) whose column exceeds `maxCol`. -/
def saveFile (fs : FS) (fn : String) (d : FileData) : Except PyErr FS :=
  if isDirPath fs fn then .error (.isADirectory (pathStr fn))
  else
    match d with
    | .excel wb =>
      match wbFirstBadCol wb.sheets with
      | some p => .error (.valueError ("Invalid column index " ++ toString p.2))
      | none => .ok (fsSet fs fn (.file d (encSize d)))
    | _ => .ok (fsSet fs fn (.file d (encSize d)))

/-- `Document(file_path)` on an existing path. -/
def openWord (fs : FS) (fn : String) : Except PyErr WordDoc :=
  if isDirPath fs fn then .error (.isADirectory (pathStr fn))
  else
    match fsGet fs fn with
    | some (.file (.word doc) _) => .ok doc
    | some (.file _ _) => .error (.notWordFile (pathStr fn))
    | some .dir => .error (.isADirectory (pathStr fn))
    | none => .error (.packageNotFound (pathStr fn))

/-- `openpyxl.load_workbook(file_path)` on an existing path. -/
def openExcel (fs : FS) (fn : String) : Except PyErr Workbook :=
  if isDirPath fs fn then .error (.isADirectory (pathStr fn))
  else
    match fsGet fs fn with
    | some (.file (.excel wb) _) => .ok wb
    | some (.file _ _) => .error (.notExcelFile (pathStr fn))
    | some .dir => .error (.isADirectory (pathStr fn))
    | none => .error (.packageNotFound (pathStr fn))

/-- `Presentation(file_path)` on an existing path. -/
def openPpt (fs : FS) (fn : String) : Except PyErr Pres :=
  if isDirPath fs fn then .error (.isADirectory (pathStr fn))
  else
    match fsGet fs fn with
    | some (.file (.ppt prs) _) => .ok prs
    | some (.file _ _) => .error (.notPptFile (pathStr fn))
    | some .dir => .error (.isADirectory (pathStr fn))
    | none => .error (.packageNotFound (pathStr fn))

/-- The "file not found" text every existing-file operation returns. -/
def notFoundMsg (fn : String) : String :=
  "文件 \x27" ++ fn ++ "\x27 不存在"

/-! ### The ten operations

Each `...Body` is the `try` block of the corresponding `OfficeManager` method;
the method itself wraps it in the `except Exception` clause converting the
error to the method's failure text and leaving the filesystem as it was. -/

/-- `try` block of `create_word_document`. -/
def create_word_documentBody (filename title content : String) (fs : FS) :
    Except PyErr (String × FS) :=
  match (if title ≠ "" then add_heading [] title 0 else .ok []) with
  | .error e => .error e
  | .ok doc =>
    let doc := if content ≠ "" then add_paragraph doc content else doc
    match saveFile fs filename (.word doc) with
    | .error e => .error e
    | .ok fs1 =>
      .ok ("Word文档 \x27" ++ filename ++ "\x27 创建成功，保存在 " ++ pathStr filename, fs1)

/-- `OfficeManager.create_word_document`. -/
def create_word_document (filename title content : String) (fs : FS) : String × FS :=
  match create_word_documentBody filename title content fs with
  | .ok r => r
  | .error e => ("创建Word文档失败: " ++ errStr e, fs)

/-- `try` block of `add_word_content`. -/
def add_word_contentBody (filename content : String) (heading_level : Int) (fs : FS) :
    Except PyErr (String × FS) :=
  if pathExists fs filename = false then .ok (notFoundMsg filename, fs)
  else
    match openWord fs filename with
    | .error e => .error e
    | .ok doc =>
      match (if heading_level > 0 then add_heading doc content heading_level
             else .ok (add_paragraph doc content)) with
      | .error e => .error e
      | .ok doc1 =>
        match saveFile fs filename (.word doc1) with
        | .error e => .error e
        | .ok fs1 => .ok ("内容已添加到 \x27" ++ filename ++ "\x27", fs1)

/-- `OfficeManager.add_word_content`. -/
def add_word_content (filename content : String) (heading_level : Int) (fs : FS) : String × FS :=
  match add_word_contentBody filename content heading_level fs with
  | .ok r => r
  | .error e => ("添加内容失败: " ++ errStr e, fs)

/-- `try` block of `read_word_document`. -/
def read_word_documentBody (filename : String) (fs : FS) : Except PyErr (String × FS) :=
  if pathExists fs filename = false then .ok (notFoundMsg filename, fs)
  else
    match openWord fs filename with
    | .error e => .error e
    | .ok doc => .ok (joinNl (collectParas doc), fs)

/-- `OfficeManager.read_word_document`. -/
def read_word_document (filename : String) (fs : FS) : String × FS :=
  match read_word_documentBody filename fs with
  | .ok r => r
  | .error e => ("读取Word文档失败: " ++ errStr e, fs)

/-- `try` block of `create_excel_workbook` (`Workbook()` has one active sheet,
renamed to `sheet_name`). -/
def create_excel_workbookBody (filename sheet_name : String) (fs : FS) :
    Except PyErr (String × FS) :=
  let wb : Workbook := { sheets := [{ title := sheet_name, cells := [] }] }
  match saveFile fs filename (.excel wb) with
  | .error e => .error e
  | .ok fs1 =>
    .ok ("Excel工作簿 \x27" ++ filename ++ "\x27 创建成功，保存在 " ++ pathStr filename, fs1)

/-- `OfficeManager.create_excel_workbook`. -/
def create_excel_workbook (filename sheet_name : String) (fs : FS) : String × FS :=
  match create_excel_workbookBody filename sheet_name fs with
  | .ok r => r
  | .error e => ("创建Excel工作簿失败: " ++ errStr e, fs)

/-- `try` block of `write_excel_data`. -/
def write_excel_dataBody (filename sheet_name : String) (data : List (List Val))
    (start_row start_col : Int) (fs : FS) : Except PyErr (String × FS) :=
  if pathExists fs filename = false then .ok (notFoundMsg filename, fs)
  else
    match openExcel fs filename with
    | .error e => .error e
    | .ok wb =>
      let wb := if sheet_name ∈ sheetnames wb then wb else create_sheet wb sheet_name
      match writeRows (wbGetD wb sheet_name) start_row start_col data with
      | .error e => .error e
      | .ok ws1 =>
        match saveFile fs filename (.excel { sheets := wbSetSheet wb.sheets sheet_name ws1 }) with
        | .error e => .error e
        | .ok fs1 =>
          .ok ("数据已写入 \x27" ++ filename ++ "\x27 的 \x27" ++ sheet_name ++ "\x27 工作表", fs1)

/-- `OfficeManager.write_excel_data`. -/
def write_excel_data (filename sheet_name : String) (data : List (List Val))
    (start_row start_col : Int) (fs : FS) : String × FS :=
  match write_excel_dataBody filename sheet_name data start_row start_col fs with
  | .ok r => r
  | .error e => ("写入Excel数据失败: " ++ errStr e, fs)

/-- `try` block of `read_excel_data` (`sheet_name=None` selects the active
sheet). -/
def read_excel_dataBody (filename : String) (sheet_name : Option String) (fs : FS) :
    Except PyErr (String × FS) :=
  if pathExists fs filename = false then .ok (notFoundMsg filename, fs)
  else
    match openExcel fs filename with
    | .error e => .error e
    | .ok wb =>
      let sn := match sheet_name with | none => activeTitle wb | some s => s
      if sn ∈ sheetnames wb then
        .ok (rowsDump (collectRows (iter_rows (wbGetD wb sn))), fs)
      else
        .ok ("工作表 \x27" ++ sn ++ "\x27 不存在", fs)

/-- `OfficeManager.read_excel_data`. -/
def read_excel_data (filename : String) (sheet_name : Option String) (fs : FS) : String × FS :=
  match read_excel_dataBody filename sheet_name fs with
  | .ok r => r
  | .error e => ("读取Excel数据失败: " ++ errStr e, fs)

/-- `try` block of `create_ppt_presentation`: when a title is given, adds a
title slide with layout 0 and assigns its title text unguarded. -/
def create_ppt_presentationBody (filename title : String) (fs : FS) :
    Except PyErr (String × FS) :=
  match
    (if title ≠ "" then
      match pyIndex newPres.layouts 0 with
      | .error e => .error e
      | .ok L =>
        match setTitleStrict (newSlideFrom L) title with
        | .error e => .error e
        | .ok sl => .ok { newPres with slides := newPres.slides ++ [sl] }
     else .ok newPres : Except PyErr Pres) with
  | .error e => .error e
  | .ok prs =>
    match saveFile fs filename (.ppt prs) with
    | .error e => .error e
    | .ok fs1 =>
      .ok ("PPT演示文稿 \x27" ++ filename ++ "\x27 创建成功，保存在 " ++ pathStr filename, fs1)

/-- `OfficeManager.create_ppt_presentation`. -/
def create_ppt_presentation (filename title : String) (fs : FS) : String × FS :=
  match create_ppt_presentationBody filename title fs with
  | .ok r => r
  | .error e => ("创建PPT演示文稿失败: " ++ errStr e, fs)

/-- `try` block of `add_ppt_slide`. -/
def add_ppt_slideBody (filename title content : String) (layout_index : Int) (fs : FS) :
    Except PyErr (String × FS) :=
  if pathExists fs filename = false then .ok (notFoundMsg filename, fs)
  else
    match openPpt fs filename with
    | .error e => .error e
    | .ok prs =>
      match pyIndex prs.layouts layout_index with
      | .error e => .error e
      | .ok L =>
        let sl := setSlideTitle (newSlideFrom L) title
        let sl := if content ≠ "" ∧ 1 < sl.numPh then { sl with bodyText := some content } else sl
        match saveFile fs filename (.ppt { prs with slides := prs.slides ++ [sl] }) with
        | .error e => .error e
        | .ok fs1 => .ok ("幻灯片已添加到 \x27" ++ filename ++ "\x27", fs1)

/-- `OfficeManager.add_ppt_slide`. -/
def add_ppt_slide (filename title content : String) (layout_index : Int) (fs : FS) : String × FS :=
  match add_ppt_slideBody filename title content layout_index fs with
  | .ok r => r
  | .error e => ("添加幻灯片失败: " ++ errStr e, fs)

/-- `try` block of `get_ppt_info`. -/
def get_ppt_infoBody (filename : String) (fs : FS) : Except PyErr (String × FS) :=
  if pathExists fs filename = false then .ok (notFoundMsg filename, fs)
  else
    match openPpt fs filename with
    | .error e => .error e
    | .ok prs =>
      .ok (jobjStr 0
        [("文件名", jquote filename),
         ("幻灯片数量", toString prs.slides.length),
         ("幻灯片标题", jarrStr 1 ((pptTitles prs.slides 0).map jquote))], fs)

/-- `OfficeManager.get_ppt_info`. -/
def get_ppt_info (filename : String) (fs : FS) : String × FS :=
  match get_ppt_infoBody filename fs with
  | .ok r => r
  | .error e => ("获取PPT信息失败: " ++ errStr e, fs)

/-- The collection loop of `list_files`: (name, size) of each regular file in
iteration order, directories skipped. -/
def listEntries : FS → List (String × Nat)
| [] => []
| (name, .file _ sz) :: rest => (name, sz) :: listEntries rest
| (_, .dir) :: rest => listEntries rest

/-- The JSON object `list_files` builds for one file. -/
def fileEntryStr (name : String) (sz : Nat) : String :=
  jobjStr 1
    [("文件名", jquote name),
     ("大小", jquote (toString sz ++ " bytes")),
     ("类型", jquote (pathSuffix name))]

/-- `try` block of `list_files`. -/
def list_filesBody (fs : FS) : Except PyErr (String × FS) :=
  .ok (jarrStr 0 ((listEntries fs).map (fun p => fileEntryStr p.1 p.2)), fs)

/-- `OfficeManager.list_files`. -/
def list_files (fs : FS) : String × FS :=
  match list_filesBody fs with
  | .ok r => r
  | .error e => ("列出文件失败: " ++ errStr e, fs)

/-! ### Dispatcher (`handle_call_tool`)

Arguments arrive as a string-keyed JSON object; a missing required key raises
`KeyError`, caught by the dispatcher's own `except` clause. -/

/-- A JSON argument value. -/
inductive AVal
| aStr (s : String)
| aInt (n : Int)
| aData (d : List (List Val))
deriving DecidableEq

/-- The argument object. -/
abbrev Args := List (String × AVal)

/-- Dictionary lookup. -/
def argGet : Args → String → Option AVal
| [], _ => none
| (k, v) :: rest, key => if key = k then some v else argGet rest key

/-- `arguments[key]` for a required string argument (`KeyError` when absent). -/
def reqStr (args : Args) (key : String) : Except PyErr String :=
  match argGet args key with
  | none => .error (.keyError key)
  | some (.aStr s) => .ok s
  | some _ => .error (.typeError ("argument \x27" ++ key ++ "\x27 is not a string"))

/-- `arguments[key]` for the required 2D `data` argument. -/
def reqData (args : Args) (key : String) : Except PyErr (List (List Val)) :=
  match argGet args key with
  | none => .error (.keyError key)
  | some (.aData d) => .ok d
  | some _ => .error (.typeError ("argument \x27" ++ key ++ "\x27 is not a 2D array"))

/-- `arguments.get(key, default)` for a string argument. -/
def optStr (args : Args) (key dflt : String) : String :=
  match argGet args key with
  | some (.aStr s) => s
  | _ => dflt

/-- `arguments.get(key)` for an optional string argument. -/
def optStrOpt (args : Args) (key : String) : Option String :=
  match argGet args key with
  | some (.aStr s) => some s
  | _ => none

/-- `arguments.get(key, default)` for an integer argument. -/
def optInt (args : Args) (key : String) (dflt : Int) : Int :=
  match argGet args key with
  | some (.aInt n) => n
  | _ => dflt

/-- The tool names the dispatcher matches (same set the registry declares). -/
def toolNames : List String :=
  ["create_word_document", "add_word_content", "read_word_document",
   "create_excel_workbook", "write_excel_data", "read_excel_data",
   "create_ppt_presentation", "add_ppt_slide", "get_ppt_info", "list_files"]

/-- `try` block of `handle_call_tool`: the name-matching chain, required
argument extraction, defaults for optional arguments, and the unknown-tool
fallback. -/
def dispatchBody (name : String) (args : Args) (fs : FS) : Except PyErr (String × FS) :=
  if name = "create_word_document" then
    match reqStr args "filename" with
    | .error e => .error e
    | .ok fn => .ok (create_word_document fn (optStr args "title" "") (optStr args "content" "") fs)
  else if name = "add_word_content" then
    match reqStr args "filename" with
    | .error e => .error e
    | .ok fn =>
      match reqStr args "content" with
      | .error e => .error e
      | .ok c => .ok (add_word_content fn c (optInt args "heading_level" 0) fs)
  else if name = "read_word_document" then
    match reqStr args "filename" with
    | .error e => .error e
    | .ok fn => .ok (read_word_document fn fs)
  else if name = "create_excel_workbook" then
    match reqStr args "filename" with
    | .error e => .error e
    | .ok fn => .ok (create_excel_workbook fn (optStr args "sheet_name" "Sheet1") fs)
  else if name = "write_excel_data" then
    match reqStr args "filename" with
    | .error e => .error e
    | .ok fn =>
      match reqStr args "sheet_name" with
      | .error e => .error e
      | .ok sn =>
        match reqData args "data" with
        | .error e => .error e
        | .ok d =>
          .ok (write_excel_data fn sn d (optInt args "start_row" 1) (optInt args "start_col" 1) fs)
  else if name = "read_excel_data" then
    match reqStr args "filename" with
    | .error e => .error e
    | .ok fn => .ok (read_excel_data fn (optStrOpt args "sheet_name") fs)
  else if name = "create_ppt_presentation" then
    match reqStr args "filename" with
    | .error e => .error e
    | .ok fn => .ok (create_ppt_presentation fn (optStr args "title" "") fs)
  else if name = "add_ppt_slide" then
    match reqStr args "filename" with
    | .error e => .error e
    | .ok fn =>
      match reqStr args "title" with
      | .error e => .error e
      | .ok t =>
        .ok (add_ppt_slide fn t (optStr args "content" "") (optInt args "layout_index" 1) fs)
  else if name = "get_ppt_info" then
    match reqStr args "filename" with
    | .error e => .error e
    | .ok fn => .ok (get_ppt_info fn fs)
  else if name = "list_files" then
    .ok (list_files fs)
  else
    .ok ("未知工具: " ++ name, fs)

/-- `handle_call_tool`: the dispatch body wrapped in the transport-level
`except Exception` clause; the result is the `TextContent` payload. -/
def handle_call_tool (name : String) (args : Args) (fs : FS) : String × FS :=
  match dispatchBody name args fs with
  | .ok r => r
  | .error e => ("执行工具 \x27" ++ name ++ "\x27 时出错: " ++ errStr e, fs)

/-! ### Derived forms and fixtures used in the statements below -/

/-- Whether an entry is a regular file. -/
def isFileEntry : Entry → Bool
| .file _ _ => true
| .dir => false

/-- Size of a file entry. -/
def entrySize : Entry → Nat
| .file _ sz => sz
| .dir => 0

/-- The workspace after creating one Word and one Excel file. -/
def fsTwoFiles : FS :=
  (create_excel_workbook "b.xlsx" "Sheet1" (create_word_document "a.docx" "" "" []).2).2

/-! ### Supporting lemmas -/

theorem listEntries_eq_filter (fs : FS) :
    listEntries fs = (fs.filter (fun p => isFileEntry p.2)).map (fun p => (p.1, entrySize p.2)) := by
  induction fs with
  | nil => rfl
  | cons kv rest ih =>
    obtain ⟨k, e⟩ := kv
    cases e <;> simp [listEntries, isFileEntry, entrySize, ih]

/-- C7: dispatching any tool name outside the fixed supported set returns the
literal unknown-tool text and leaves the workspace unchanged, instead of
raising or failing the transport. -/
theorem claim7_unknown_tool_text (name : String) (args : Args) (fs : FS)
    (h : name ∉ toolNames) :
    handle_call_tool name args fs = ("未知工具: " ++ name, fs) := by
  simp only [toolNames, List.mem_cons, List.not_mem_nil, or_false] at h
  push_neg at h
  obtain ⟨h1, h2, h3, h4, h5, h6, h7, h8, h9, h10⟩ := h
  simp [handle_call_tool, dispatchBody, h1, h2, h3, h4, h5, h6, h7, h8, h9, h10]

/-- Witness for C7: the spec's concrete scenario, tool name `nonexistent_tool`. -/
theorem claim7_witness :
    handle_call_tool "nonexistent_tool" [] [] = ("未知工具: " ++ "nonexistent_tool", []) :=
  claim7_unknown_tool_text "nonexistent_tool" [] [] (by decide)

/-- C2: each operation that requires an existing file, called on a filename
whose resolved path does not exist, returns the file-absence text, does not
raise, and leaves the filesystem unchanged. -/
theorem claim2_missing_file_reported (fs : FS) (fn content sn t c : String)
    (hl sr sc li : Int) (data : List (List Val)) (osn : Option String)
    (h : pathExists fs fn = false) :
    add_word_content fn content hl fs = (notFoundMsg fn, fs) ∧
    read_word_document fn fs = (notFoundMsg fn, fs) ∧
    write_excel_data fn sn data sr sc fs = (notFoundMsg fn, fs) ∧
    read_excel_data fn osn fs = (notFoundMsg fn, fs) ∧
    add_ppt_slide fn t c li fs = (notFoundMsg fn, fs) ∧
    get_ppt_info fn fs = (notFoundMsg fn, fs) := by
  refine ⟨?_, ?_, ?_, ?_, ?_, ?_⟩
  · simp [add_word_content, add_word_contentBody, h]
  · simp [read_word_document, read_word_documentBody, h]
  · simp [write_excel_data, write_excel_dataBody, h]
  · simp [read_excel_data, read_excel_dataBody, h]
  · simp [add_ppt_slide, add_ppt_slideBody, h]
  · simp [get_ppt_info, get_ppt_infoBody, h]

/-- Witness for C2: all six operations on `nosuch.docx` over an empty
workspace. -/
theorem claim2_witness :
    add_word_content "nosuch.docx" "x" 0 [] = (notFoundMsg "nosuch.docx", []) ∧
    read_word_document "nosuch.docx" [] = (notFoundMsg "nosuch.docx", []) ∧
    write_excel_data "nosuch.docx" "Sheet1" [[.vInt 1]] 1 1 [] = (notFoundMsg "nosuch.docx", []) ∧
    read_excel_data "nosuch.docx" none [] = (notFoundMsg "nosuch.docx", []) ∧
    add_ppt_slide "nosuch.docx" "T" "" 1 [] = (notFoundMsg "nosuch.docx", []) ∧
    get_ppt_info "nosuch.docx" [] = (notFoundMsg "nosuch.docx", []) :=
  claim2_missing_file_reported [] "nosuch.docx" "x" "Sheet1" "T" "" 0 1 1 1 [[.vInt 1]] none
    (by decide)

/-- C9: `list_files` returns one JSON object per regular file directly in the
workspace (its name, its size in bytes, its extension), skipping directories;
the empty workspace yields the empty JSON array, and the workspace holding one
Word and one Excel file yields exactly the two entries with extensions
`.docx` and `.xlsx`. -/
theorem claim9_list_files_contract :
    (∀ fs : FS, listEntries fs =
      (fs.filter (fun p => isFileEntry p.2)).map (fun p => (p.1, entrySize p.2))) ∧
    (∀ fs : FS, list_files fs =
      (jarrStr 0 ((listEntries fs).map (fun p => fileEntryStr p.1 p.2)), fs)) ∧
    list_files ([] : FS) = ("[]", []) ∧
    (listEntries fsTwoFiles).map (fun p => p.1) = ["a.docx", "b.xlsx"] ∧
    (listEntries fsTwoFiles).map (fun p => pathSuffix p.1) = [".docx", ".xlsx"] :=
  ⟨listEntries_eq_filter, fun _ => rfl, by decide, by decide, by decide⟩

end Office
